import Mathlib

/-!
Verification of the TrainDB CLI model runner (src/tools/TrainDBCliModelRunner.py).

The runner is a lifecycle dispatcher over dynamically loaded model plugins.
We embed it shallowly:

  - a pandas DataFrame is a list of rows with named columns; the source only
    ever uses len(real_data.index), the row count;
  - the JSON table metadata is an association list of string keys to JSON
    values (JValue);
  - a plugin module (the unit produced by importlib spec_from_file_location,
    module_from_spec, exec_module) is a table of symbols, each resolving to a
    plugin type; the environment those importlib calls read from is a
    Filesystem: a map from paths to source units, which may be unreadable
    (FileNotFoundError on exec_module), unparsable (SyntaxError), or a valid
    module;
  - a plugin type carries the duck-typed capability set as functions over an
    abstract instance-state type σ; train and save also yield the filesystem
    effects the plugin performs, so that partial writes are observable;
  - each dispatcher method returns a RunOut: the Except result (Python
    exceptions become PyError values), the ordered trace of module-load,
    attribute-resolution and capability-call events it performed, and the
    filesystem effects accumulated from plugin calls.

The CLI branches (the module-level code after argument parsing) are embedded
as functions from parsed arguments to a CliOut: exit code, stdout lines and
file writes. An uncaught exception terminates the Python process with exit
code 1; sys.exit(0) gives 0.
-/

/-- A pandas DataFrame as used by the runner: named columns and a row list.
The source touches only len(real_data.index), the number of rows. -/
structure DataFrame where
  columns : List String
  rows : List (List String)
deriving Repr, DecidableEq

/-- len(df.index): the row count of the DataFrame. -/
def DataFrame.index_len (df : DataFrame) : Nat := df.rows.length

/-- A JSON value, as produced by json.load on the metadata file. -/
inductive JValue where
  | jnull : JValue
  | jbool : Bool → JValue
  | jnum : Int → JValue
  | jstr : String → JValue
  | jarr : List JValue → JValue
  | jobj : List (String × JValue) → JValue

mutual

/-- json.dumps of a JValue (default separators; string escaping elided). -/
def JValue.dumps : JValue → String
  | .jnull => "null"
  | .jbool true => "true"
  | .jbool false => "false"
  | .jnum n => toString n
  | .jstr s => "\"" ++ s ++ "\""
  | .jarr items => "[" ++ JValue.dumps_items items ++ "]"
  | .jobj fields => "\x7b" ++ JValue.dumps_fields fields ++ "\x7d"

/-- json.dumps of the items of a JSON array. -/
def JValue.dumps_items : List JValue → String
  | [] => ""
  | [v] => JValue.dumps v
  | v :: rest => JValue.dumps v ++ ", " ++ JValue.dumps_items rest

/-- json.dumps of the fields of a JSON object. -/
def JValue.dumps_fields : List (String × JValue) → String
  | [] => ""
  | [(k, v)] => "\"" ++ k ++ "\": " ++ JValue.dumps v
  | (k, v) :: rest => "\"" ++ k ++ "\": " ++ JValue.dumps v ++ ", " ++ JValue.dumps_fields rest

end

/-- Python dict lookup (d[k] returning an Option instead of raising KeyError). -/
def lookup_assoc {α : Type} : List (String × α) → String → Option α
  | [], _ => none
  | (k2, v) :: rest, k => if k2 == k then some v else lookup_assoc rest k

/-- A filesystem effect performed by a plugin capability or by the CLI:
writing data to a path, or deleting a path. The dispatcher itself never emits
a delete. -/
inductive FsEffect where
  | write : String → String → FsEffect
  | delete : String → FsEffect
deriving Repr, DecidableEq

/-- An argument value recorded in a capability-call event. -/
inductive ArgVal where
  | str : String → ArgVal
  | int : Int → ArgVal
  | df : DataFrame → ArgVal
  | obj : List (String × JValue) → ArgVal
  | kwargs : List (String × JValue) → ArgVal

/-- An event in a dispatcher run: loading the plugin module, resolving the
class symbol via getattr, calling a capability on an instance (call), or
calling a capability on the type itself (typeCall). The name recorded in a
call event is the attribute name the source accesses. -/
inductive Event where
  | loadModule : String → String → Event
  | getattr : String → Event
  | call : String → List ArgVal → Event
  | typeCall : String → List ArgVal → Event

/-- The capability name of a call or typeCall event, if any. -/
def Event.capName : Event → Option String
  | .call n _ => some n
  | .typeCall n _ => some n
  | _ => none

/-- A Python exception raised during a run. raised carries the name of the
capability whose call raised, together with the message. -/
inductive PyError where
  | fileNotFound : String → PyError
  | syntaxError : String → PyError
  | attributeError : String → PyError
  | keyError : String → PyError
  | typeError : String → PyError
  | raised : String → String → PyError
deriving Repr, DecidableEq

/-- The error taxonomy of the specification. -/
inductive ErrorKind where
  | pluginNotFound
  | symbolMissing
  | constructionError
  | artifactIOError
  | capabilityError
deriving Repr, DecidableEq

/-- Maps a Python exception to the kind of the spec taxonomy, when one
applies: unreadable or unparsable source is PluginNotFound, a missing symbol
is SymbolMissing, and a capability raising internally is classified by which
capability raised. KeyError and TypeError from metadata access fall outside
the taxonomy. -/
def PyError.specKind : PyError → Option ErrorKind
  | .fileNotFound _ => some .pluginNotFound
  | .syntaxError _ => some .pluginNotFound
  | .attributeError _ => some .symbolMissing
  | .keyError _ => none
  | .typeError _ => none
  | .raised cap _ =>
      if cap == "construct" then some .constructionError
      else if cap == "save" || cap == "load" then some .artifactIOError
      else some .capabilityError

/-- The duck-typed capability set of a plugin type, over an abstract
instance-state type σ. train and save also yield the filesystem effects the
plugin performs; each capability may raise (Except.error with a message). -/
structure PluginType (σ : Type) where
  construct : List (String × JValue) → Except String σ
  train : σ → DataFrame → List (String × JValue) → List FsEffect × Except String σ
  save : σ → String → List FsEffect × Except String Unit
  load : σ → String → Except String σ
  synopsis : σ → Int → Except String DataFrame
  infer : σ → String → String → String → Except String (List (List String) × String)
  list_hyperparameters : Except String JValue

/-- A loaded plugin module: its top-level symbols. -/
structure PluginModule (σ : Type) where
  symbols : List (String × PluginType σ)

/-- What the importlib loading sequence finds at a source location:
a location whose suffix spec_from_file_location does not recognize (an
extensionless or directory path, existing or not), for which it returns None;
a recognized but missing or unreadable file; code that does not parse; or a
valid module. -/
inductive SourceUnit (σ : Type) where
  | noLoader : SourceUnit σ
  | unreadable : SourceUnit σ
  | unparsable : SourceUnit σ
  | module : PluginModule σ → SourceUnit σ

/-- The environment importlib reads plugin code from. -/
def Filesystem (σ : Type) : Type := String → SourceUnit σ

/-- The outcome of one dispatcher method: result, event trace, and the
filesystem effects accumulated from plugin capability calls. -/
structure RunOut (α : Type) where
  result : Except PyError α
  trace : List Event
  effects : List FsEffect

/-- The structured result of train_model before json.dumps. -/
structure TrainInfo where
  base_table_rows : Nat
  trained_rows : Nat
deriving Repr, DecidableEq

/-- json.dumps of the train_info dict built at lines 34 to 37 of the source. -/
def TrainInfo.dumps (t : TrainInfo) : String :=
  "\x7b\"base_table_rows\": " ++ toString t.base_table_rows ++
    ", \"trained_rows\": " ++ toString t.trained_rows ++ "\x7d"

/-- table_metadata of the options sub-mapping: Python evaluates
table_metadata with key options, raising KeyError when the key is absent and
TypeError when the value cannot be splatted as keyword arguments. -/
def get_options (table_metadata : List (String × JValue)) :
    Except PyError (List (String × JValue)) :=
  match lookup_assoc table_metadata "options" with
  | none => .error (.keyError "options")
  | some (.jobj fields) => .ok fields
  | some _ => .error (.typeError "argument after ** must be a mapping")

namespace TrainDBCliModelRunner

/-- Lines 21 to 26: spec_from_file_location, module_from_spec, exec_module.
When the path suffix is not a recognized import suffix,
spec_from_file_location returns None and module_from_spec raises the
AttributeError for attribute loader on None. For a recognized suffix, a
missing or unreadable file makes exec_module raise FileNotFoundError; code
that does not parse raises SyntaxError; otherwise the loaded module is
returned. -/
def _load_module {σ : Type} (fs : Filesystem σ)
    (modeltype_class modeltype_path : String) :
    Except PyError (PluginModule σ) :=
  match fs modeltype_path with
  | .noLoader => .error (.attributeError "loader")
  | .unreadable => .error (.fileNotFound modeltype_path)
  | .unparsable => .error (.syntaxError modeltype_path)
  | .module m => .ok m

/-- Lines 28 to 37: load the module, resolve the class, construct with the
keyword options of table_metadata, train, save, then build the train_info
record from len(real_data.index). Python evaluates the getattr before the
options subscript, and each failure propagates immediately. -/
def train_model {σ : Type} (fs : Filesystem σ)
    (modeltype_class modeltype_path : String) (real_data : DataFrame)
    (table_metadata : List (String × JValue)) (model_path : String) :
    RunOut TrainInfo :=
  match _load_module fs modeltype_class modeltype_path with
  | .error e => ⟨.error e, [.loadModule modeltype_class modeltype_path], []⟩
  | .ok m =>
    match lookup_assoc m.symbols modeltype_class with
    | none =>
        ⟨.error (.attributeError modeltype_class),
         [.loadModule modeltype_class modeltype_path, .getattr modeltype_class], []⟩
    | some ty =>
      match get_options table_metadata with
      | .error e =>
          ⟨.error e,
           [.loadModule modeltype_class modeltype_path, .getattr modeltype_class], []⟩
      | .ok opts =>
        match ty.construct opts with
        | .error msg =>
            ⟨.error (.raised "construct" msg),
             [.loadModule modeltype_class modeltype_path, .getattr modeltype_class,
              .call "construct" [.kwargs opts]], []⟩
        | .ok inst0 =>
          match ty.train inst0 real_data table_metadata with
          | (eff_t, .error msg) =>
              ⟨.error (.raised "train" msg),
               [.loadModule modeltype_class modeltype_path, .getattr modeltype_class,
                .call "construct" [.kwargs opts],
                .call "train" [.df real_data, .obj table_metadata]], eff_t⟩
          | (eff_t, .ok inst1) =>
            match ty.save inst1 model_path with
            | (eff_s, .error msg) =>
                ⟨.error (.raised "save" msg),
                 [.loadModule modeltype_class modeltype_path, .getattr modeltype_class,
                  .call "construct" [.kwargs opts],
                  .call "train" [.df real_data, .obj table_metadata],
                  .call "save" [.str model_path]], eff_t ++ eff_s⟩
            | (eff_s, .ok _) =>
                ⟨.ok ⟨real_data.index_len, real_data.index_len⟩,
                 [.loadModule modeltype_class modeltype_path, .getattr modeltype_class,
                  .call "construct" [.kwargs opts],
                  .call "train" [.df real_data, .obj table_metadata],
                  .call "save" [.str model_path]], eff_t ++ eff_s⟩

/-- Lines 39 to 44: load the module, resolve the class, construct with no
arguments, load the model artifact, call the synopsis capability with
row_count, and return its dataset unchanged. -/
def generate_synopsis {σ : Type} (fs : Filesystem σ)
    (modeltype_class modeltype_path model_path : String) (row_count : Int) :
    RunOut DataFrame :=
  match _load_module fs modeltype_class modeltype_path with
  | .error e => ⟨.error e, [.loadModule modeltype_class modeltype_path], []⟩
  | .ok m =>
    match lookup_assoc m.symbols modeltype_class with
    | none =>
        ⟨.error (.attributeError modeltype_class),
         [.loadModule modeltype_class modeltype_path, .getattr modeltype_class], []⟩
    | some ty =>
      match ty.construct [] with
      | .error msg =>
          ⟨.error (.raised "construct" msg),
           [.loadModule modeltype_class modeltype_path, .getattr modeltype_class,
            .call "construct" []], []⟩
      | .ok inst0 =>
        match ty.load inst0 model_path with
        | .error msg =>
            ⟨.error (.raised "load" msg),
             [.loadModule modeltype_class modeltype_path, .getattr modeltype_class,
              .call "construct" [], .call "load" [.str model_path]], []⟩
        | .ok inst1 =>
          match ty.synopsis inst1 row_count with
          | .error msg =>
              ⟨.error (.raised "synopsis" msg),
               [.loadModule modeltype_class modeltype_path, .getattr modeltype_class,
                .call "construct" [], .call "load" [.str model_path],
                .call "synopsis" [.int row_count]], []⟩
          | .ok syn_data =>
              ⟨.ok syn_data,
               [.loadModule modeltype_class modeltype_path, .getattr modeltype_class,
                .call "construct" [], .call "load" [.str model_path],
                .call "synopsis" [.int row_count]], []⟩

/-- Lines 46 to 51: load the module, resolve the class, construct with no
arguments, load the model artifact, call infer and return its pair of
aggregate result and confidence interval unchanged. -/
def infer {σ : Type} (fs : Filesystem σ)
    (modeltype_class modeltype_path model_path : String)
    (agg_expr group_by_column where_condition : String) :
    RunOut (List (List String) × String) :=
  match _load_module fs modeltype_class modeltype_path with
  | .error e => ⟨.error e, [.loadModule modeltype_class modeltype_path], []⟩
  | .ok m =>
    match lookup_assoc m.symbols modeltype_class with
    | none =>
        ⟨.error (.attributeError modeltype_class),
         [.loadModule modeltype_class modeltype_path, .getattr modeltype_class], []⟩
    | some ty =>
      match ty.construct [] with
      | .error msg =>
          ⟨.error (.raised "construct" msg),
           [.loadModule modeltype_class modeltype_path, .getattr modeltype_class,
            .call "construct" []], []⟩
      | .ok inst0 =>
        match ty.load inst0 model_path with
        | .error msg =>
            ⟨.error (.raised "load" msg),
             [.loadModule modeltype_class modeltype_path, .getattr modeltype_class,
              .call "construct" [], .call "load" [.str model_path]], []⟩
        | .ok inst1 =>
          match ty.infer inst1 agg_expr group_by_column where_condition with
          | .error msg =>
              ⟨.error (.raised "infer" msg),
               [.loadModule modeltype_class modeltype_path, .getattr modeltype_class,
                .call "construct" [], .call "load" [.str model_path],
                .call "infer" [.str agg_expr, .str group_by_column,
                               .str where_condition]], []⟩
          | .ok infer_results =>
              ⟨.ok infer_results,
               [.loadModule modeltype_class modeltype_path, .getattr modeltype_class,
                .call "construct" [], .call "load" [.str model_path],
                .call "infer" [.str agg_expr, .str group_by_column,
                               .str where_condition]], []⟩

/-- Lines 53 to 57: load the module, resolve the class, and call
list_hyperparameters on the type itself without constructing an instance; the
result is serialized with json.dumps. No model path is taken and no artifact
is touched. -/
def list_hyperparameters {σ : Type} (fs : Filesystem σ)
    (modeltype_class modeltype_path : String) : RunOut String :=
  match _load_module fs modeltype_class modeltype_path with
  | .error e => ⟨.error e, [.loadModule modeltype_class modeltype_path], []⟩
  | .ok m =>
    match lookup_assoc m.symbols modeltype_class with
    | none =>
        ⟨.error (.attributeError modeltype_class),
         [.loadModule modeltype_class modeltype_path, .getattr modeltype_class], []⟩
    | some ty =>
      match ty.list_hyperparameters with
      | .error msg =>
          ⟨.error (.raised "list_hyperparameters" msg),
           [.loadModule modeltype_class modeltype_path, .getattr modeltype_class,
            .typeCall "list_hyperparameters" []], []⟩
      | .ok hyperparams_info =>
          ⟨.ok hyperparams_info.dumps,
           [.loadModule modeltype_class modeltype_path, .getattr modeltype_class,
            .typeCall "list_hyperparameters" []], []⟩

end TrainDBCliModelRunner

/-- The exit code, stdout lines and file writes of one CLI invocation. An
uncaught Python exception terminates the process with exit code 1; sys.exit(0)
gives 0. -/
structure CliOut where
  exit_code : Nat
  stdout : List String
  writes : List FsEffect
deriving Repr, DecidableEq

/-- Python repr of one row, as print would show it inside its list. -/
def py_print_row (r : List String) : String :=
  "[" ++ String.intercalate ", " (r.map (fun s => "\x27" ++ s ++ "\x27")) ++ "]"

/-- Python print of the aggregate result (a list of rows). -/
def py_print_rows (rows : List (List String)) : String :=
  "[" ++ String.intercalate ", " (rows.map py_print_row) ++ "]"

/-- csv.writer writerows: each row joined by commas, terminated by CRLF;
no header row is emitted. -/
def csv_writerows (rows : List (List String)) : String :=
  String.join (rows.map (fun r => String.intercalate "," r ++ "\r\n"))

/-- Lines 110 to 117 of the source, after runner.infer has returned the pair
(aqp_result, confidence_interval): when output_file is the empty string the
aggregate result is printed, otherwise it is written with csv writerows to
output_file. The confidence interval is bound but never used. -/
def infer_branch (aqp_result : List (List String)) (confidence_interval : String)
    (output_file : String) : CliOut :=
  if output_file == "" then
    ⟨0, [py_print_rows aqp_result], []⟩
  else
    ⟨0, [], [.write output_file (csv_writerows aqp_result)]⟩

/-- argparse for the infer subcommand's trailing positional: output_file has
nargs of one optional value and default empty string, so an omitted argument
parses to the empty string. -/
def parse_infer_output_file (arg : Option String) : String := arg.getD ""

/-- The infer CLI branch end to end: run the dispatcher, then dispatch on the
parsed output_file; an uncaught dispatcher failure exits nonzero with nothing
printed or written by this branch. -/
def infer_cli {σ : Type} (fs : Filesystem σ)
    (modeltype_class modeltype_uri model_path : String)
    (agg_expr group_by_column where_condition output_file : String) : CliOut :=
  match TrainDBCliModelRunner.infer fs modeltype_class modeltype_uri model_path
      agg_expr group_by_column where_condition with
  | ⟨.ok (aqp_result, confidence_interval), _, _⟩ =>
      infer_branch aqp_result confidence_interval output_file
  | ⟨.error _, _, eff⟩ => ⟨1, [], eff⟩

/-- The train CLI branch after the data and metadata files are read: run
train_model; on success write the dumped train_info to
model_path/train_info.json and exit 0; an uncaught failure exits nonzero,
leaving exactly the effects the plugin already performed. -/
def train_cli {σ : Type} (fs : Filesystem σ)
    (modeltype_class modeltype_uri : String) (data_file : DataFrame)
    (table_metadata : List (String × JValue)) (model_path : String) : CliOut :=
  match TrainDBCliModelRunner.train_model fs modeltype_class modeltype_uri
      data_file table_metadata model_path with
  | ⟨.ok train_info, _, eff⟩ =>
      ⟨0, [], eff ++ [.write (model_path ++ "/train_info.json") train_info.dumps]⟩
  | ⟨.error _, _, eff⟩ => ⟨1, [], eff⟩

/-! Concrete plugins and filesystems used to witness the theorems below. -/

/-- A concrete two-row dataset. -/
def demo_df : DataFrame := ⟨["a"], [["1"], ["2"]]⟩

/-- A concrete empty dataset (0 rows). -/
def empty_df : DataFrame := ⟨["a"], []⟩

/-- A concrete well-behaved plugin over instance state Nat. -/
def demo_plugin : PluginType Nat where
  construct := fun _ => .ok 0
  train := fun s _ _ => ([.write "scratch/state" "partial"], .ok (s + 1))
  save := fun _ p => ([.write (p ++ "/model.bin") "bytes"], .ok ())
  load := fun s _ => .ok s
  synopsis := fun _ n => .ok ⟨["a"], List.replicate n.toNat ["0"]⟩
  infer := fun _ _ _ _ => .ok ([["42"]], "interval")
  list_hyperparameters := .ok (.jobj [])

/-- demo_plugin, except save writes a partial artifact and then raises. -/
def failing_save_plugin : PluginType Nat :=
  { demo_plugin with
    save := fun _ p => ([.write (p ++ "/model.bin") "partial bytes"], .error "disk full") }

/-- A filesystem in which every path holds a module defining DemoModel. -/
def demo_fs : Filesystem Nat := fun _ => .module ⟨[("DemoModel", demo_plugin)]⟩

/-- A filesystem in which every path holds a module defining FailSaveModel. -/
def fail_save_fs : Filesystem Nat :=
  fun _ => .module ⟨[("FailSaveModel", failing_save_plugin)]⟩

/-- A filesystem with no readable path. -/
def unreadable_fs : Filesystem Nat := fun _ => .unreadable

/-- A filesystem in which every path has an unrecognized import suffix, so
spec_from_file_location returns None. -/
def no_loader_fs : Filesystem Nat := fun _ => .noLoader

/-- A concrete metadata object with an empty options sub-mapping. -/
def demo_metadata : List (String × JValue) := [("options", .jobj [])]

/-! Helper lemmas shared by several theorems. -/

/-- Whenever train_model returns ok, the returned record is built from
len(real_data.index) in both fields. -/
theorem train_model_ok_shape {σ : Type} (fs : Filesystem σ)
    (cls path : String) (real_data : DataFrame)
    (meta : List (String × JValue)) (mp : String) (info : TrainInfo)
    (h : (TrainDBCliModelRunner.train_model fs cls path real_data meta mp).result
        = .ok info) :
    info = ⟨real_data.index_len, real_data.index_len⟩ := by
  unfold TrainDBCliModelRunner.train_model at h
  repeat' split at h
  all_goals simp_all

/-- C1: for every input dataset real_data, of any size including 0 rows, a
successful train_model returns a TrainInfo whose base_table_rows and
trained_rows both equal the row count of real_data. -/
theorem C1_train_returns_row_counts {σ : Type} (fs : Filesystem σ)
    (cls path : String) (real_data : DataFrame)
    (meta : List (String × JValue)) (mp : String) (info : TrainInfo)
    (h : (TrainDBCliModelRunner.train_model fs cls path real_data meta mp).result
        = .ok info) :
    info.base_table_rows = real_data.index_len ∧
    info.trained_rows = real_data.index_len := by
  have hs := train_model_ok_shape fs cls path real_data meta mp info h
  subst hs
  exact ⟨rfl, rfl⟩

/-- C1 witness: a concrete successful train run on the empty dataset. -/
theorem C1_train_returns_row_counts_witness :
    (⟨0, 0⟩ : TrainInfo).base_table_rows = empty_df.index_len ∧
    (⟨0, 0⟩ : TrainInfo).trained_rows = empty_df.index_len :=
  C1_train_returns_row_counts demo_fs "DemoModel" "demo.py" empty_df
    demo_metadata "mdir" ⟨0, 0⟩ rfl

/-- C2 counterexample: on a concrete run, the capability names called by
generate_synopsis are construct, load and synopsis; no capability named
synthesis is ever called, contrary to the claim. -/
theorem C2_capability_name_counterexample :
    (TrainDBCliModelRunner.generate_synopsis demo_fs "DemoModel" "demo.py"
        "mdir" 3).trace.filterMap Event.capName = ["construct", "load", "synopsis"] ∧
    "synthesis" ∉ (TrainDBCliModelRunner.generate_synopsis demo_fs "DemoModel"
        "demo.py" "mdir" 3).trace.filterMap Event.capName := by
  have h1 : (TrainDBCliModelRunner.generate_synopsis demo_fs "DemoModel" "demo.py"
      "mdir" 3).trace.filterMap Event.capName = ["construct", "load", "synopsis"] := rfl
  refine ⟨h1, ?_⟩
  rw [h1]
  decide

/-- C2 amended: for every Synthesize invocation, the dispatcher constructs
the plugin with no options, calls load with model_path, then calls the plugin
capability named synopsis with row_count, and returns the dataset produced by
that call unchanged, with no other capability calls. -/
theorem C2_synopsis_dispatch_sequence {σ : Type} (fs : Filesystem σ)
    (cls path mp : String) (rc : Int) (m : PluginModule σ) (ty : PluginType σ)
    (inst0 inst1 : σ) (syn_data : DataFrame)
    (hfs : fs path = .module m)
    (hsym : lookup_assoc m.symbols cls = some ty)
    (hcon : ty.construct [] = .ok inst0)
    (hld : ty.load inst0 mp = .ok inst1)
    (hsyn : ty.synopsis inst1 rc = .ok syn_data) :
    TrainDBCliModelRunner.generate_synopsis fs cls path mp rc =
      ⟨.ok syn_data,
       [.loadModule cls path, .getattr cls, .call "construct" [],
        .call "load" [.str mp], .call "synopsis" [.int rc]], []⟩ := by
  unfold TrainDBCliModelRunner.generate_synopsis TrainDBCliModelRunner._load_module
  rw [hfs]
  simp [hsym, hcon, hld, hsyn]

/-- C2 witness: the amended sequence on a concrete run. -/
theorem C2_synopsis_dispatch_sequence_witness :
    TrainDBCliModelRunner.generate_synopsis demo_fs "DemoModel" "demo.py" "mdir" 2 =
      ⟨.ok ⟨["a"], [["0"], ["0"]]⟩,
       [.loadModule "DemoModel" "demo.py", .getattr "DemoModel",
        .call "construct" [], .call "load" [.str "mdir"],
        .call "synopsis" [.int 2]], []⟩ :=
  C2_synopsis_dispatch_sequence demo_fs "DemoModel" "demo.py" "mdir" 2
    ⟨[("DemoModel", demo_plugin)]⟩ demo_plugin 0 0 ⟨["a"], [["0"], ["0"]]⟩
    rfl rfl rfl rfl rfl

/-- C3: a Train invocation performs exactly the sequence construct with the
keyword options of the metadata options sub-mapping, then train on the real
data and metadata, then save to model_path, in that order, with no other
capability calls. -/
theorem C3_train_call_sequence {σ : Type} (fs : Filesystem σ)
    (cls path : String) (real_data : DataFrame) (meta : List (String × JValue))
    (mp : String) (m : PluginModule σ) (ty : PluginType σ)
    (opts : List (String × JValue)) (inst0 inst1 : σ)
    (eff_t eff_s : List FsEffect)
    (hfs : fs path = .module m)
    (hsym : lookup_assoc m.symbols cls = some ty)
    (hopt : get_options meta = .ok opts)
    (hcon : ty.construct opts = .ok inst0)
    (htr : ty.train inst0 real_data meta = (eff_t, .ok inst1))
    (hsv : ty.save inst1 mp = (eff_s, .ok ())) :
    (TrainDBCliModelRunner.train_model fs cls path real_data meta mp).trace =
      [.loadModule cls path, .getattr cls,
       .call "construct" [.kwargs opts],
       .call "train" [.df real_data, .obj meta],
       .call "save" [.str mp]] := by
  unfold TrainDBCliModelRunner.train_model TrainDBCliModelRunner._load_module
  rw [hfs]
  simp [hsym, hopt, hcon, htr, hsv]

/-- C3 witness: the train sequence on a concrete run. -/
theorem C3_train_call_sequence_witness :
    (TrainDBCliModelRunner.train_model demo_fs "DemoModel" "demo.py" demo_df
        demo_metadata "mdir").trace =
      [.loadModule "DemoModel" "demo.py", .getattr "DemoModel",
       .call "construct" [.kwargs []],
       .call "train" [.df demo_df, .obj demo_metadata],
       .call "save" [.str "mdir"]] :=
  C3_train_call_sequence demo_fs "DemoModel" "demo.py" demo_df demo_metadata
    "mdir" ⟨[("DemoModel", demo_plugin)]⟩ demo_plugin [] 0 1
    [.write "scratch/state" "partial"] [.write "mdir/model.bin" "bytes"]
    rfl rfl rfl rfl rfl rfl

/-- C4: ListHyperparameters resolves the module and class and calls
list_hyperparameters on the type itself; it takes no model path, touches no
artifact, never constructs an instance, and succeeds whenever the loaded unit
defines the class with that capability. -/
theorem C4_list_hyperparameters_type_level {σ : Type} (fs : Filesystem σ)
    (cls path : String) (m : PluginModule σ) (ty : PluginType σ) (hv : JValue)
    (hfs : fs path = .module m)
    (hsym : lookup_assoc m.symbols cls = some ty)
    (hcap : ty.list_hyperparameters = .ok hv) :
    TrainDBCliModelRunner.list_hyperparameters fs cls path =
      ⟨.ok hv.dumps,
       [.loadModule cls path, .getattr cls,
        .typeCall "list_hyperparameters" []], []⟩ ∧
    (∀ args, Event.call "construct" args ∉
      (TrainDBCliModelRunner.list_hyperparameters fs cls path).trace) := by
  have heq : TrainDBCliModelRunner.list_hyperparameters fs cls path =
      ⟨.ok hv.dumps,
       [.loadModule cls path, .getattr cls,
        .typeCall "list_hyperparameters" []], []⟩ := by
    unfold TrainDBCliModelRunner.list_hyperparameters TrainDBCliModelRunner._load_module
    rw [hfs]
    simp [hsym, hcap]
  refine ⟨heq, fun args => ?_⟩
  rw [heq]
  simp

/-- C4 witness: a concrete run with no trained artifact anywhere. -/
theorem C4_list_hyperparameters_type_level_witness :
    TrainDBCliModelRunner.list_hyperparameters demo_fs "DemoModel" "demo.py" =
      ⟨.ok (JValue.jobj []).dumps,
       [.loadModule "DemoModel" "demo.py", .getattr "DemoModel",
        .typeCall "list_hyperparameters" []], []⟩ ∧
    (∀ args, Event.call "construct" args ∉
      (TrainDBCliModelRunner.list_hyperparameters demo_fs "DemoModel"
        "demo.py").trace) :=
  C4_list_hyperparameters_type_level demo_fs "DemoModel" "demo.py"
    ⟨[("DemoModel", demo_plugin)]⟩ demo_plugin (JValue.jobj []) rfl rfl rfl

/-- C5 counterexample: an invalid source location whose suffix the import
machinery does not recognize makes the loader fail with the AttributeError
raised by module_from_spec on a None spec, whose kind is SymbolMissing and
not PluginNotFound, refuting the claim that every invalid location fails
with the kind PluginNotFound and never an unrelated kind. -/
theorem C5_loader_error_kinds_counterexample :
    TrainDBCliModelRunner._load_module no_loader_fs "M" "plugin_dir" =
      .error (.attributeError "loader") ∧
    (PyError.attributeError "loader").specKind = some .symbolMissing ∧
    (PyError.attributeError "loader").specKind ≠ some .pluginNotFound := by
  refine ⟨rfl, rfl, ?_⟩
  decide

/-- C5 amended: an unreadable or unparsable source location with a
recognized import suffix makes the loader fail with an error of kind
PluginNotFound; a location whose suffix the import machinery does not
recognize makes the loader fail with the AttributeError on the None spec,
of kind SymbolMissing; and when the loaded unit does not define the class
symbol, each of the four dispatcher operations fails with an error of kind
SymbolMissing. -/
theorem C5_loader_error_kinds {σ : Type} (fs : Filesystem σ) (cls path : String) :
    ((fs path = .unreadable ∨ fs path = .unparsable) →
      ∃ e, TrainDBCliModelRunner._load_module fs cls path = .error e ∧
        e.specKind = some .pluginNotFound) ∧
    (fs path = .noLoader →
      ∃ e, TrainDBCliModelRunner._load_module fs cls path = .error e ∧
        e.specKind = some .symbolMissing) ∧
    (∀ m : PluginModule σ, fs path = .module m →
      lookup_assoc m.symbols cls = none →
      (∀ real_data meta mp, ∃ e,
        (TrainDBCliModelRunner.train_model fs cls path real_data meta mp).result
            = .error e ∧ e.specKind = some .symbolMissing) ∧
      (∀ mp rc, ∃ e,
        (TrainDBCliModelRunner.generate_synopsis fs cls path mp rc).result
            = .error e ∧ e.specKind = some .symbolMissing) ∧
      (∀ mp a g w, ∃ e,
        (TrainDBCliModelRunner.infer fs cls path mp a g w).result
            = .error e ∧ e.specKind = some .symbolMissing) ∧
      (∃ e, (TrainDBCliModelRunner.list_hyperparameters fs cls path).result
            = .error e ∧ e.specKind = some .symbolMissing)) := by
  refine ⟨?_, ?_, ?_⟩
  · rintro (hbad | hbad)
    · exact ⟨.fileNotFound path,
        by unfold TrainDBCliModelRunner._load_module; rw [hbad], rfl⟩
    · exact ⟨.syntaxError path,
        by unfold TrainDBCliModelRunner._load_module; rw [hbad], rfl⟩
  · intro hbad
    exact ⟨.attributeError "loader",
      by unfold TrainDBCliModelRunner._load_module; rw [hbad], rfl⟩
  · intro m hm hmiss
    have hload : TrainDBCliModelRunner._load_module fs cls path = .ok m := by
      unfold TrainDBCliModelRunner._load_module
      rw [hm]
    refine ⟨fun real_data meta mp => ⟨.attributeError cls, ?_, rfl⟩,
            fun mp rc => ⟨.attributeError cls, ?_, rfl⟩,
            fun mp a g w => ⟨.attributeError cls, ?_, rfl⟩,
            ⟨.attributeError cls, ?_, rfl⟩⟩
    · unfold TrainDBCliModelRunner.train_model
      rw [hload]
      simp [hmiss]
    · unfold TrainDBCliModelRunner.generate_synopsis
      rw [hload]
      simp [hmiss]
    · unfold TrainDBCliModelRunner.infer
      rw [hload]
      simp [hmiss]
    · unfold TrainDBCliModelRunner.list_hyperparameters
      rw [hload]
      simp [hmiss]

/-- C5 witness: a concrete unreadable location, a concrete location with an
unrecognized suffix, and a concrete module that does not define the
requested class name. -/
theorem C5_loader_error_kinds_witness :
    (∃ e, TrainDBCliModelRunner._load_module unreadable_fs "M" "gone.py"
        = .error e ∧ e.specKind = some .pluginNotFound) ∧
    (∃ e, TrainDBCliModelRunner._load_module no_loader_fs "M" "plugin_dir"
        = .error e ∧ e.specKind = some .symbolMissing) ∧
    (∃ e, (TrainDBCliModelRunner.train_model demo_fs "Missing" "demo.py"
        demo_df demo_metadata "mdir").result = .error e ∧
      e.specKind = some .symbolMissing) :=
  ⟨(C5_loader_error_kinds unreadable_fs "M" "gone.py").1 (Or.inl rfl),
   (C5_loader_error_kinds no_loader_fs "M" "plugin_dir").2.1 rfl,
   ((C5_loader_error_kinds demo_fs "Missing" "demo.py").2.2
      ⟨[("DemoModel", demo_plugin)]⟩ rfl rfl).1 demo_df demo_metadata "mdir"⟩

/-- C6: on a successful infer run, an omitted output_file (the empty string)
prints the aggregate result to stdout and writes no file; a nonempty
output_file writes the rows with csv writerows (no header) and prints
nothing; and in both paths the confidence interval has no influence on the
CLI output. -/
theorem C6_infer_cli_output {σ : Type} (fs : Filesystem σ)
    (cls uri mp a g w out : String) (aqp : List (List String)) (ci : String)
    (hrun : (TrainDBCliModelRunner.infer fs cls uri mp a g w).result
        = .ok (aqp, ci)) :
    infer_cli fs cls uri mp a g w out = infer_branch aqp ci out ∧
    (out = "" →
      infer_cli fs cls uri mp a g w out = ⟨0, [py_print_rows aqp], []⟩) ∧
    (out ≠ "" →
      infer_cli fs cls uri mp a g w out =
        ⟨0, [], [.write out (csv_writerows aqp)]⟩) ∧
    (∀ ci2, infer_branch aqp ci2 out = infer_branch aqp ci out) := by
  have hmain : infer_cli fs cls uri mp a g w out = infer_branch aqp ci out := by
    unfold infer_cli
    rcases hT : TrainDBCliModelRunner.infer fs cls uri mp a g w with ⟨res, tr, eff⟩
    rw [hT] at hrun
    simp only [] at hrun
    subst hrun
    rfl
  refine ⟨hmain, fun hout => ?_, fun hout => ?_, fun ci2 => ?_⟩
  · rw [hmain, hout]
    rfl
  · rw [hmain]
    simp [infer_branch, hout]
  · rfl

/-- C6 witness: a concrete successful infer run, exercised on the omitted
output_file path. -/
theorem C6_infer_cli_output_witness :
    (infer_cli demo_fs "DemoModel" "demo.py" "mdir" "cnt" "g" "w" "" =
      infer_branch [["42"]] "interval" "") ∧
    (("" : String) = "" → infer_cli demo_fs "DemoModel" "demo.py" "mdir"
        "cnt" "g" "w" "" = ⟨0, [py_print_rows [["42"]]], []⟩) ∧
    (("" : String) ≠ "" → infer_cli demo_fs "DemoModel" "demo.py" "mdir"
        "cnt" "g" "w" "" = ⟨0, [], [.write "" (csv_writerows [["42"]])]⟩) ∧
    (∀ ci2, infer_branch [["42"]] ci2 "" = infer_branch [["42"]] "interval" "") :=
  C6_infer_cli_output demo_fs "DemoModel" "demo.py" "mdir" "cnt" "g" "w" ""
    [["42"]] "interval" rfl

/-- C7: when construct and train succeed and save fails, the error raised by
save propagates unchanged as the result of train_model, the accumulated
effects are exactly what the plugin itself wrote, with no deletion added by
the dispatcher, and the train CLI branch exits nonzero without writing
train_info.json. -/
theorem C7_save_failure_no_rollback {σ : Type} (fs : Filesystem σ)
    (cls path : String) (real_data : DataFrame) (meta : List (String × JValue))
    (mp : String) (m : PluginModule σ) (ty : PluginType σ)
    (opts : List (String × JValue)) (inst0 inst1 : σ)
    (eff_t eff_s : List FsEffect) (msg : String)
    (hfs : fs path = .module m)
    (hsym : lookup_assoc m.symbols cls = some ty)
    (hopt : get_options meta = .ok opts)
    (hcon : ty.construct opts = .ok inst0)
    (htr : ty.train inst0 real_data meta = (eff_t, .ok inst1))
    (hsv : ty.save inst1 mp = (eff_s, .error msg)) :
    (TrainDBCliModelRunner.train_model fs cls path real_data meta mp).result
        = .error (.raised "save" msg) ∧
    (TrainDBCliModelRunner.train_model fs cls path real_data meta mp).effects
        = eff_t ++ eff_s ∧
    (∀ p, FsEffect.delete p ∈
        (TrainDBCliModelRunner.train_model fs cls path real_data meta mp).effects →
      FsEffect.delete p ∈ eff_t ++ eff_s) ∧
    train_cli fs cls path real_data meta mp = ⟨1, [], eff_t ++ eff_s⟩ ∧
    (train_cli fs cls path real_data meta mp).exit_code ≠ 0 := by
  have hrun : TrainDBCliModelRunner.train_model fs cls path real_data meta mp =
      ⟨.error (.raised "save" msg),
       [.loadModule cls path, .getattr cls,
        .call "construct" [.kwargs opts],
        .call "train" [.df real_data, .obj meta],
        .call "save" [.str mp]], eff_t ++ eff_s⟩ := by
    unfold TrainDBCliModelRunner.train_model TrainDBCliModelRunner._load_module
    rw [hfs]
    simp [hsym, hopt, hcon, htr, hsv]
  have hcli : train_cli fs cls path real_data meta mp = ⟨1, [], eff_t ++ eff_s⟩ := by
    unfold train_cli
    rw [hrun]
  refine ⟨by rw [hrun], by rw [hrun], fun p hp => by rwa [hrun] at hp,
          hcli, by rw [hcli]; exact Nat.one_ne_zero⟩

/-- C7 witness: a concrete plugin whose save writes a partial artifact and
then raises. -/
theorem C7_save_failure_no_rollback_witness :
    (TrainDBCliModelRunner.train_model fail_save_fs "FailSaveModel" "demo.py"
        demo_df demo_metadata "mdir").result = .error (.raised "save" "disk full") ∧
    (TrainDBCliModelRunner.train_model fail_save_fs "FailSaveModel" "demo.py"
        demo_df demo_metadata "mdir").effects =
      [.write "scratch/state" "partial"] ++ [.write "mdir/model.bin" "partial bytes"] ∧
    (∀ p, FsEffect.delete p ∈
        (TrainDBCliModelRunner.train_model fail_save_fs "FailSaveModel" "demo.py"
          demo_df demo_metadata "mdir").effects →
      FsEffect.delete p ∈
        [.write "scratch/state" "partial"] ++ [.write "mdir/model.bin" "partial bytes"]) ∧
    train_cli fail_save_fs "FailSaveModel" "demo.py" demo_df demo_metadata "mdir" =
      ⟨1, [], [.write "scratch/state" "partial"] ++ [.write "mdir/model.bin" "partial bytes"]⟩ ∧
    (train_cli fail_save_fs "FailSaveModel" "demo.py" demo_df demo_metadata
        "mdir").exit_code ≠ 0 :=
  C7_save_failure_no_rollback fail_save_fs "FailSaveModel" "demo.py" demo_df
    demo_metadata "mdir" ⟨[("FailSaveModel", failing_save_plugin)]⟩
    failing_save_plugin [] 0 1 [.write "scratch/state" "partial"]
    [.write "mdir/model.bin" "partial bytes"] "disk full"
    rfl rfl rfl rfl rfl rfl

/-- C8: two successful train runs identical except for model_path return
TrainInfo records with identical base_table_rows and identical trained_rows. -/
theorem C8_train_shape_idempotent {σ : Type} (fs : Filesystem σ)
    (cls path : String) (real_data : DataFrame) (meta : List (String × JValue))
    (mp1 mp2 : String) (info1 info2 : TrainInfo)
    (h1 : (TrainDBCliModelRunner.train_model fs cls path real_data meta mp1).result
        = .ok info1)
    (h2 : (TrainDBCliModelRunner.train_model fs cls path real_data meta mp2).result
        = .ok info2) :
    info1.base_table_rows = info2.base_table_rows ∧
    info1.trained_rows = info2.trained_rows := by
  have e1 := train_model_ok_shape fs cls path real_data meta mp1 info1 h1
  have e2 := train_model_ok_shape fs cls path real_data meta mp2 info2 h2
  subst e1
  subst e2
  exact ⟨rfl, rfl⟩

/-- C8 witness: two concrete train runs against different model paths. -/
theorem C8_train_shape_idempotent_witness :
    (⟨2, 2⟩ : TrainInfo).base_table_rows = (⟨2, 2⟩ : TrainInfo).base_table_rows ∧
    (⟨2, 2⟩ : TrainInfo).trained_rows = (⟨2, 2⟩ : TrainInfo).trained_rows :=
  C8_train_shape_idempotent demo_fs "DemoModel" "demo.py" demo_df demo_metadata
    "mdir1" "mdir2" ⟨2, 2⟩ ⟨2, 2⟩ rfl rfl

/-- C9: when the metadata has no options key, train_model fails with the
KeyError for options after the module is loaded and the class resolved, with
an empty capability-call trace and no effects: no plugin capability was
invoked and nothing was persisted. -/
theorem C9_missing_options_key {σ : Type} (fs : Filesystem σ)
    (cls path : String) (real_data : DataFrame) (meta : List (String × JValue))
    (mp : String) (m : PluginModule σ) (ty : PluginType σ)
    (hfs : fs path = .module m)
    (hsym : lookup_assoc m.symbols cls = some ty)
    (hopt : lookup_assoc meta "options" = none) :
    TrainDBCliModelRunner.train_model fs cls path real_data meta mp =
      ⟨.error (.keyError "options"),
       [.loadModule cls path, .getattr cls], []⟩ ∧
    (∀ n args, Event.call n args ∉
      (TrainDBCliModelRunner.train_model fs cls path real_data meta mp).trace) ∧
    (TrainDBCliModelRunner.train_model fs cls path real_data meta mp).effects
      = [] := by
  have heq : TrainDBCliModelRunner.train_model fs cls path real_data meta mp =
      ⟨.error (.keyError "options"),
       [.loadModule cls path, .getattr cls], []⟩ := by
    unfold TrainDBCliModelRunner.train_model TrainDBCliModelRunner._load_module
    rw [hfs]
    simp [hsym, get_options, hopt]
  refine ⟨heq, fun n args => ?_, by rw [heq]⟩
  rw [heq]
  simp

/-- C9 witness: a concrete metadata object with no options key. -/
theorem C9_missing_options_key_witness :
    TrainDBCliModelRunner.train_model demo_fs "DemoModel" "demo.py" demo_df
        [("schema", .jobj [])] "mdir" =
      ⟨.error (.keyError "options"),
       [.loadModule "DemoModel" "demo.py", .getattr "DemoModel"], []⟩ ∧
    (∀ n args, Event.call n args ∉
      (TrainDBCliModelRunner.train_model demo_fs "DemoModel" "demo.py" demo_df
        [("schema", .jobj [])] "mdir").trace) ∧
    (TrainDBCliModelRunner.train_model demo_fs "DemoModel" "demo.py" demo_df
        [("schema", .jobj [])] "mdir").effects = [] :=
  C9_missing_options_key demo_fs "DemoModel" "demo.py" demo_df
    [("schema", .jobj [])] "mdir" ⟨[("DemoModel", demo_plugin)]⟩ demo_plugin
    rfl rfl rfl

/-- The infer dispatcher never performs filesystem effects: its capability
calls (construct, load, infer) yield values only. -/
theorem infer_run_effects_nil {σ : Type} (fs : Filesystem σ)
    (cls uri mp a g w : String) :
    (TrainDBCliModelRunner.infer fs cls uri mp a g w).effects = [] := by
  unfold TrainDBCliModelRunner.infer
  repeat' split
  all_goals rfl

/-- C10: passing an empty string as output_file parses to the same value as
omitting the argument, so the infer CLI behaves identically: nothing is
written to any file, and on a successful run the aggregate result is printed
to stdout. -/
theorem C10_empty_output_file_like_omitted {σ : Type} (fs : Filesystem σ)
    (cls uri mp a g w : String) :
    infer_cli fs cls uri mp a g w (parse_infer_output_file (some "")) =
      infer_cli fs cls uri mp a g w (parse_infer_output_file none) ∧
    (infer_cli fs cls uri mp a g w (parse_infer_output_file (some ""))).writes
      = [] ∧
    (∀ aqp ci,
      (TrainDBCliModelRunner.infer fs cls uri mp a g w).result = .ok (aqp, ci) →
      (infer_cli fs cls uri mp a g w (parse_infer_output_file (some ""))).stdout
        = [py_print_rows aqp]) := by
  have heff := infer_run_effects_nil fs cls uri mp a g w
  refine ⟨rfl, ?_, ?_⟩
  · unfold infer_cli
    rcases hT : TrainDBCliModelRunner.infer fs cls uri mp a g w with ⟨res, tr, eff⟩
    rw [hT] at heff
    simp only [] at heff
    cases res with
    | ok pr =>
        rcases pr with ⟨aqp, ci⟩
        rfl
    | error e =>
        simpa using heff
  · intro aqp ci hrun
    unfold infer_cli
    rcases hT : TrainDBCliModelRunner.infer fs cls uri mp a g w with ⟨res, tr, eff⟩
    rw [hT] at hrun
    simp only [] at hrun
    subst hrun
    rfl

/-- C10 witness: a concrete run with the output_file argument passed as the
empty string. -/
theorem C10_empty_output_file_like_omitted_witness :
    infer_cli demo_fs "DemoModel" "demo.py" "mdir" "cnt" "g" "w"
        (parse_infer_output_file (some "")) =
      infer_cli demo_fs "DemoModel" "demo.py" "mdir" "cnt" "g" "w"
        (parse_infer_output_file none) ∧
    (infer_cli demo_fs "DemoModel" "demo.py" "mdir" "cnt" "g" "w"
        (parse_infer_output_file (some ""))).writes = [] ∧
    (infer_cli demo_fs "DemoModel" "demo.py" "mdir" "cnt" "g" "w"
        (parse_infer_output_file (some ""))).stdout = [py_print_rows [["42"]]] :=
  have h := C10_empty_output_file_like_omitted demo_fs "DemoModel" "demo.py"
    "mdir" "cnt" "g" "w"
  ⟨h.1, h.2.1, h.2.2 [["42"]] "interval" rfl⟩

